import Mathlib

/-!
Shallow embedding of the mirrormaker relay (src/main.go) and verification of
the specification's claims about it.

Conventions of the embedding:
* Go byte slices (`[]byte`) are modelled as `List Nat`; only emptiness and
  byte-for-byte identity of these slices matter to the program.
* Go `int32` values are modelled as `Int`.  The only arithmetic the program
  performs on them is `numPartitions - 1` (which wraps at the `int32`
  boundary, modelled by `wrap32`) and `Partition % numPartitions` (Go's
  truncated remainder, modelled by `Int.tmod`, which panics in Go when the
  divisor is zero, modelled by the `panicked` result).
* A Go function returning `(T, error)` is modelled as a sum of an `ok` value
  and an `error` carrying the literal error-message string; a run-time panic
  is a third alternative.
-/

namespace Mirrormaker

/-- Byte sequences (`[]byte` in the source). -/
abbrev Bytes := List Nat

/-- The fields of `sarama.ConsumerMessage` that the program reads
(src/main.go uses `Partition`, `Key`, `Value`, and marks by message). -/
structure ConsumerMessage where
  topic : String
  partition : Int
  key : Bytes
  value : Bytes
  offset : Int
deriving DecidableEq, Repr

/-- The fields of `sarama.ProducerMessage` that `PartitionMsg` sets.
A field not mentioned in the Go struct literal is absent (`none`): the
`Partition` field is only meaningful under the manual partitioner, and the
`Key` field is a nil encoder when unset. -/
structure ProducerMessage where
  topic : String
  partition : Option Int
  key : Option Bytes
  value : Bytes
deriving DecidableEq, Repr

/-- Result of a Go call returning `(sarama.ProducerMessage, error)` that may
also panic at run time (integer division by zero). -/
inductive PMResult where
  | ok (msg : ProducerMessage)
  | error (e : String)
  | panicked
deriving DecidableEq, Repr

/-- Wrap-around of Go `int32` arithmetic: reduces an integer into
`[-2^31, 2^31)` modulo `2^32`. -/
def wrap32 (x : Int) : Int :=
  (x + 2 ^ 31) % 2 ^ 32 - 2 ^ 31

/-- Error string of src/main.go line 243. -/
def configErrMsg : String := "configuration error, partitioner or topic was not set."

/-- Error string of src/main.go line 246. -/
def valueErrMsg : String := "value is not set"

/-- Error string of src/main.go line 249. -/
def negPartitionErrMsg : String := "the source message has a negative value for its partition"

/-- Error string of src/main.go line 255. -/
def keyErrMsg : String := "key is not set, we can\x27t use the hash function for this type of messages"

/-- Error string of src/main.go line 261. -/
def capacityErrMsg : String := "the dest topic has less partitions than the source, this is an invalid configuration and not compatible with keep partition."

/-- Error string of src/main.go line 268. -/
def targetMissingErrMsg : String := "the target partition does not exist on the destination topic"

/-- Error string of src/main.go line 274. -/
def invalidPartitionerErrMsg : String := "invalid partitioner defined"

/-- Embedding of `PartitionMsg` (src/main.go lines 241-276).  The `switch`
on the partitioner string becomes an `if`-chain; Go's `%` on `int32` is
`Int.tmod` guarded by the divisor-zero panic; `numPartitions - 1` wraps as
`int32` subtraction. -/
def PartitionMsg (partitioner topic : String) (origmsg : ConsumerMessage)
    (numPartitions : Int) : PMResult :=
  if partitioner = "" ∨ topic = "" then
    .error configErrMsg
  else if origmsg.value.length = 0 then
    .error valueErrMsg
  else if origmsg.partition < 0 then
    .error negPartitionErrMsg
  else if partitioner = "hash" then
    if origmsg.key.length = 0 then
      .error keyErrMsg
    else
      .ok ⟨topic, none, some origmsg.key, origmsg.value⟩
  else if partitioner = "keeppartition" then
    if origmsg.partition > wrap32 (numPartitions - 1) then
      .error capacityErrMsg
    else
      .ok ⟨topic, some origmsg.partition, some origmsg.key, origmsg.value⟩
  else if partitioner = "modulo" then
    if numPartitions = 0 then
      .panicked
    else
      let targetPartition := Int.tmod origmsg.partition numPartitions
      if targetPartition > wrap32 (numPartitions - 1) then
        .error targetMissingErrMsg
      else
        .ok ⟨topic, some targetPartition, some origmsg.key, origmsg.value⟩
  else if partitioner = "random" then
    .ok ⟨topic, none, none, origmsg.value⟩
  else
    .error invalidPartitionerErrMsg

/-- Spec taxonomy (§7): ConfigurationError — policy or target topic unset,
or unrecognized policy name. -/
def isConfigurationError (e : String) : Bool :=
  e = configErrMsg || e = invalidPartitionerErrMsg

/-- Spec taxonomy (§7): ValidationError — empty value, negative source
partition, or missing key under the hash policy. -/
def isValidationError (e : String) : Bool :=
  e = valueErrMsg || e = negPartitionErrMsg || e = keyErrMsg

/-- Spec taxonomy (§7): CapacityError — keeppartition with an
under-provisioned destination. -/
def isCapacityError (e : String) : Bool :=
  e = capacityErrMsg

/-- Go strings.ToLower restricted to ASCII, where it agrees with Go's
Unicode-aware lowering; configuration policy names are ASCII. -/
def toLowerAscii (s : String) : String :=
  ⟨s.data.map Char.toLower⟩

/-- Embedding of the startup handling of the partitioner name
(src/main.go lines 114-117): the configured string is lowercased and the
manual partitioner is selected exactly for `keeppartition` and `modulo`.
Startup performs no other check on the name; the returned pair is the
manual-partitioner flag and the string handed to the `Consumer`. -/
def mainPartitionerSetup (raw : String) : Bool × String :=
  let partitioner := toLowerAscii raw
  (partitioner = "keeppartition" || partitioner = "modulo", partitioner)

/-! ## The per-partition claim loop -/

/-- The fields of the `Consumer` struct that `ConsumeClaim` reads
(src/main.go lines 279-286; the readiness channel, producer handle and
metrics registry are modelled by the event trace instead). -/
structure Consumer where
  producerTopic : String
  partitioner : String
  numPartitions : Int
deriving DecidableEq, Repr

/-- Observable side effects of one iteration of the claim loop: a push of a
routed message onto the producer input channel (src/main.go line 312), and a
mark of a source message's offset (line 316). -/
inductive Event where
  | push (m : ProducerMessage)
  | mark (m : ConsumerMessage)
deriving DecidableEq, Repr

/-- How a run of `ConsumeClaim` ends: the claim stream is exhausted
(`done`, returns nil), a routing error terminates the claim (`failed`,
returns the error), or a panic propagates out of `PartitionMsg`. -/
inductive ClaimOutcome where
  | done
  | failed (e : String)
  | panicked
deriving DecidableEq, Repr

/-- Embedding of `Consumer.ConsumeClaim` (src/main.go lines 301-319) on the
ordered message stream of one claimed partition: for each message in order,
call `PartitionMsg`; on error log and return it; on success push the routed
message onto the producer channel and then mark the source message. The
value is the trace of pushes and marks together with the outcome. -/
def ConsumeClaim (c : Consumer) : List ConsumerMessage → List Event × ClaimOutcome
  | [] => ([], .done)
  | message :: rest =>
    match PartitionMsg c.partitioner c.producerTopic message c.numPartitions with
    | .ok msg =>
      let r := ConsumeClaim c rest
      (.push msg :: .mark message :: r.1, r.2)
    | .error e => ([], .failed e)
    | .panicked => ([], .panicked)

/-! ## The shutdown coordinator -/

/-- The shutdown deadline, in seconds: `5 * time.Minute`
(src/main.go line 221). -/
def shutdownDeadline : Nat := 300

/-- Embedding of the shutdown `select` loop (src/main.go lines 212-225).
`arrivals` is the ordered list of absolute times (seconds since the loop was
entered) at which completion tags are sent on channel `c1`; `now` is the
time the current loop iteration starts and `closecnt` the tags received so
far.  Each iteration creates a fresh `time.After(5 * time.Minute)` timer, so
the timer measures from `now`, not from shutdown start.  A tag strictly
earlier than `now + 300` wins the `select`; with no tag before the timer
fires, the process exits with status 1; the second received tag exits with
status 0.  The returned value is the process exit status. -/
def shutdownWait : List Nat → Nat → Nat → Nat
  | [], _, _ => 1
  | a :: rest, now, closecnt =>
    if a < now + shutdownDeadline then
      if closecnt + 1 = 2 then 0 else shutdownWait rest a (closecnt + 1)
    else 1

/-- The shutdown coordinator entered at time 0 with no tags yet received
(src/main.go lines 196-225). -/
def shutdownCoordinator (arrivals : List Nat) : Nat :=
  shutdownWait arrivals 0 0

/-! ## The consume loop and the readiness gate -/

/-- State of the consume-loop goroutine (src/main.go lines 151-166) as far
as the readiness channel is concerned.  Channels are identified by the order
of their creation: `readyId` is the channel currently stored in
`consumer.ready`, `nextId` the identity the next `make(chan bool)` will get,
and `closed` the trace of `close` calls performed so far, in order. -/
structure SessionLoopState where
  readyId : Nat
  nextId : Nat
  closed : List Nat
deriving DecidableEq, Repr

/-- Embedding of `Consumer.Setup` (src/main.go lines 289-293): runs at the
beginning of each consumer-group generation and closes the current
`consumer.ready` channel. -/
def setupFire (s : SessionLoopState) : SessionLoopState :=
  { s with closed := s.closed ++ [s.readyId] }

/-- The statement `consumer.ready = make(chan bool)` executed by the consume
loop after `Consume` returns (src/main.go line 164): replaces the ready
channel with a fresh one. -/
def recreateReady (s : SessionLoopState) : SessionLoopState :=
  { s with readyId := s.nextId, nextId := s.nextId + 1 }

/-- One full iteration of the consume loop: `Consume` fires `Setup` on the
current ready channel, and after it returns the loop recreates the
channel. -/
def runGeneration (s : SessionLoopState) : SessionLoopState :=
  recreateReady (setupFire s)

/-- State before the first `Consume` call: `consumer.ready` is the channel
made at the `Consumer` literal (src/main.go line 142), identified as 0. -/
def initialSessionState : SessionLoopState :=
  ⟨0, 1, []⟩

/-- The consume loop after `n` completed generations. -/
def runGenerations : Nat → SessionLoopState
  | 0 => initialSessionState
  | n + 1 => runGeneration (runGenerations n)

/-- The ReadyGate: the channel the main goroutine blocks on at
`<-consumer.ready` (src/main.go line 167), i.e. the channel made at the
`Consumer` literal before the loop starts. -/
def readyGateId : Nat := 0

/-! ## Helper lemmas -/

/-- Go `int32` subtraction does not actually wrap for values already in the
`int32` range. -/
theorem wrap32_eq_self {x : Int} (h1 : -(2 ^ 31) ≤ x) (h2 : x < 2 ^ 31) :
    wrap32 x = x := by
  unfold wrap32
  rw [Int.emod_eq_of_lt (by omega) (by omega)]
  omega

/-- Branch resolution for the modulo policy with a positive partition count:
every argument passing the common validations reaches the success branch,
and Go truncated remainder agrees with the mathematical remainder there. -/
theorem partitionMsg_modulo_pos (topic : String) (m : ConsumerMessage) (N : Int)
    (htopic : topic ≠ "") (hval : m.value ≠ []) (hp : 0 ≤ m.partition)
    (hN : 0 < N) (hN32 : N < 2 ^ 31) :
    PartitionMsg ("modulo") topic m N =
      .ok ⟨topic, some (m.partition % N), some m.key, m.value⟩ := by
  have hw : wrap32 (N - 1) = N - 1 := wrap32_eq_self (by omega) (by omega)
  have htm : Int.tmod m.partition N = m.partition % N :=
    Int.tmod_eq_emod hp (le_of_lt hN)
  have hml : m.partition % N < N := Int.emod_lt_of_pos _ hN
  simp only [PartitionMsg, hw, htm]
  simp [htopic, hval, not_lt.mpr hp, List.length_eq_zero]
  rw [if_neg (by omega : ¬N = 0), if_neg (by omega : ¬N - 1 < m.partition % N)]

/-- The consume loop after `n` generations has closed exactly the channels
`0, 1, …, n-1`, in order, and holds the fresh channel `n`. -/
theorem runGenerations_eq (n : Nat) :
    runGenerations n = ⟨n, n + 1, List.range n⟩ := by
  induction n with
  | zero => rfl
  | succ k ih =>
    simp [runGenerations, ih, runGeneration, setupFire, recreateReady, List.range_succ]

/-! ## Claims -/

/-- C1: in the per-partition claim loop, an offset is marked consumed only
after its routed message has been pushed onto the asynchronous production
queue: every `mark` event in the trace of `ConsumeClaim` is preceded by the
`push` of the routed message produced from the marked message, so no trace
contains a mark for a message that was not first handed off. -/
theorem consumeClaim_mark_only_after_push (c : Consumer)
    (msgs : List ConsumerMessage) (i : Nat) (m : ConsumerMessage)
    (h : (ConsumeClaim c msgs).1.get? i = some (.mark m)) :
    ∃ j pm, j < i ∧ (ConsumeClaim c msgs).1.get? j = some (.push pm) ∧
      PartitionMsg c.partitioner c.producerTopic m c.numPartitions = .ok pm := by
  induction msgs generalizing i with
  | nil => simp [ConsumeClaim] at h
  | cons x rest ih =>
    cases hpm : PartitionMsg c.partitioner c.producerTopic x c.numPartitions with
    | ok pmx =>
      have hunfold : ConsumeClaim c (x :: rest) =
          (Event.push pmx :: Event.mark x :: (ConsumeClaim c rest).1,
            (ConsumeClaim c rest).2) := by
        rw [ConsumeClaim, hpm]
      rw [hunfold] at h ⊢
      match i with
      | 0 => simp at h
      | 1 =>
        simp at h
        exact ⟨0, pmx, by omega, by simp, h ▸ hpm⟩
      | Nat.succ (Nat.succ n) =>
        simp only [List.get?] at h
        obtain ⟨j, pm, hj, hget, hok⟩ := ih n h
        exact ⟨j + 2, pm, by omega, by simpa using hget, hok⟩
    | error e =>
      rw [ConsumeClaim, hpm] at h
      simp at h
    | panicked =>
      rw [ConsumeClaim, hpm] at h
      simp at h

/-- Witness for C1: a one-message run whose trace marks the message at
index 1, after its push at index 0. -/
theorem consumeClaim_mark_only_after_push_witness :
    (ConsumeClaim ⟨"t", "random", 1⟩ [⟨"s", 0, [], [1], 0⟩]).1.get? 1 =
      some (.mark ⟨"s", 0, [], [1], 0⟩) ∧
    ∃ j pm, j < 1 ∧
      (ConsumeClaim ⟨"t", "random", 1⟩ [⟨"s", 0, [], [1], 0⟩]).1.get? j =
        some (.push pm) ∧
      PartitionMsg ("random") ("t") ⟨"s", 0, [], [1], 0⟩ 1 = .ok pm :=
  ⟨by decide,
    consumeClaim_mark_only_after_push ⟨"t", "random", 1⟩
      [⟨"s", 0, [], [1], 0⟩] 1 ⟨"s", 0, [], [1], 0⟩ (by decide)⟩

/-- C2 (counterexample to the claim as stated): the claim quantifies over
every message with a non-negative source partition, but a message with an
empty value fails the common validations, so with N = 1 > 0 `Map` does not
succeed with target partition 0 mod 1: it returns the empty-value
ValidationError. -/
theorem modulo_claim_empty_value_counterexample :
    PartitionMsg ("modulo") ("t") ⟨"s", 0, [], [], 0⟩ 1 = .error valueErrMsg := by
  decide

/-- C2 (amended): for every message with non-negative source partition that
also passes the common validations (non-empty target topic and non-empty
value), and every int32 partition count N > 0, the modulo policy succeeds
and the target partition is sourcePartition mod N, which lies in [0, N). -/
theorem partitionMsg_modulo_correct (topic : String) (m : ConsumerMessage)
    (N : Int) (htopic : topic ≠ "") (hval : m.value ≠ []) (hp : 0 ≤ m.partition)
    (hN : 0 < N) (hN32 : N < 2 ^ 31) :
    PartitionMsg ("modulo") topic m N =
      .ok ⟨topic, some (m.partition % N), some m.key, m.value⟩ ∧
    0 ≤ m.partition % N ∧ m.partition % N < N :=
  ⟨partitionMsg_modulo_pos topic m N htopic hval hp hN hN32,
    Int.emod_nonneg _ (by omega), Int.emod_lt_of_pos _ hN⟩

/-- Witness for the amended C2: source partition 5 with 3 target partitions
is routed to partition 2. -/
theorem partitionMsg_modulo_correct_witness :
    PartitionMsg ("modulo") ("t") ⟨"s", 5, [1], [2], 0⟩ 3 =
      .ok ⟨"t", some ((5 : Int) % 3), some [1], [2]⟩ ∧
    0 ≤ (5 : Int) % 3 ∧ (5 : Int) % 3 < 3 :=
  partitionMsg_modulo_correct ("t") ⟨"s", 5, [1], [2], 0⟩ 3
    (by decide) (by decide) (by decide) (by decide) (by decide)

/-- C3: for every message passing the common validations and every int32
partition count N > 0, the keeppartition policy fails with the
CapacityError exactly when sourcePartition ≥ N, and otherwise succeeds
with the target partition equal to the source partition. -/
theorem partitionMsg_keeppartition_capacity (topic : String)
    (m : ConsumerMessage) (N : Int) (htopic : topic ≠ "") (hval : m.value ≠ [])
    (hp : 0 ≤ m.partition) (hN : 0 < N) (hN32 : N < 2 ^ 31) :
    PartitionMsg ("keeppartition") topic m N =
      (if N ≤ m.partition then .error capacityErrMsg
       else .ok ⟨topic, some m.partition, some m.key, m.value⟩) ∧
    isCapacityError capacityErrMsg = true := by
  have hw : wrap32 (N - 1) = N - 1 := wrap32_eq_self (by omega) (by omega)
  constructor
  · simp only [PartitionMsg, hw]
    simp [htopic, hval, not_lt.mpr hp, List.length_eq_zero]
    rcases le_or_lt N m.partition with hcase | hcase
    · rw [if_pos (by omega : N - 1 < m.partition), if_pos hcase]
    · rw [if_neg (by omega : ¬N - 1 < m.partition), if_neg (by omega : ¬N ≤ m.partition)]
  · simp [isCapacityError]

/-- Witness for C3: source partition 2 is kept as-is with 3 target
partitions. -/
theorem partitionMsg_keeppartition_capacity_witness :
    PartitionMsg ("keeppartition") ("t") ⟨"s", 2, [1], [2], 0⟩ 3 =
      (if (3 : Int) ≤ 2 then .error capacityErrMsg
       else .ok ⟨"t", some 2, some [1], [2]⟩) ∧
    isCapacityError capacityErrMsg = true :=
  partitionMsg_keeppartition_capacity ("t") ⟨"s", 2, [1], [2], 0⟩ 3
    (by decide) (by decide) (by decide) (by decide) (by decide)

/-- C4 (counterexample to the claim as stated): an unrecognized policy name
is not rejected at startup — line 114-117 of main only chooses the manual
partitioner and performs no validation — and `PartitionMsg` is exactly the
place where the invalid name is first detected, per message, via its
default branch. -/
theorem invalid_policy_detected_in_map_counterexample :
    (mainPartitionerSetup ("roundrobin")).1 = false ∧
    PartitionMsg ("roundrobin") ("t") ⟨"s", 0, [1], [1], 0⟩ 4 =
      .error invalidPartitionerErrMsg ∧
    isConfigurationError invalidPartitionerErrMsg = true := by
  decide

/-- C4 (amended): startup lowercases the configured policy name and merely
selects the manual partitioner for keeppartition and modulo, with no
rejection of unrecognized names; instead, for every message passing the
common validations, `Map` with an unrecognized (non-empty) policy name
fails with the ConfigurationError of the default branch — the invalid name
is detected per message, in `Map`. -/
theorem invalid_policy_per_message (partitioner topic raw : String)
    (m : ConsumerMessage) (N : Int)
    (hne : partitioner ≠ "") (hh : partitioner ≠ "hash")
    (hk : partitioner ≠ "keeppartition") (hm : partitioner ≠ "modulo")
    (hr : partitioner ≠ "random")
    (htopic : topic ≠ "") (hval : m.value ≠ []) (hp : 0 ≤ m.partition) :
    PartitionMsg partitioner topic m N = .error invalidPartitionerErrMsg ∧
    isConfigurationError invalidPartitionerErrMsg = true ∧
    (mainPartitionerSetup raw).2 = toLowerAscii raw ∧
    ((mainPartitionerSetup raw).1 = true ↔
      toLowerAscii raw = "keeppartition" ∨ toLowerAscii raw = "modulo") := by
  refine ⟨?_, by simp [isConfigurationError], rfl, by simp [mainPartitionerSetup]⟩
  simp [PartitionMsg, hne, hh, hk, hm, hr, htopic, hval, not_lt.mpr hp,
    List.length_eq_zero]

/-- Witness for the amended C4: the name roundrobin reaches the default
branch of `PartitionMsg` on a well-formed message. -/
theorem invalid_policy_per_message_witness :
    PartitionMsg ("roundrobin") ("t") ⟨"s", 0, [1], [1], 0⟩ 4 =
      .error invalidPartitionerErrMsg ∧
    isConfigurationError invalidPartitionerErrMsg = true ∧
    (mainPartitionerSetup ("RoundRobin")).2 = toLowerAscii ("RoundRobin") ∧
    ((mainPartitionerSetup ("RoundRobin")).1 = true ↔
      toLowerAscii ("RoundRobin") = "keeppartition" ∨
        toLowerAscii ("RoundRobin") = "modulo") :=
  invalid_policy_per_message ("roundrobin") ("t") ("RoundRobin")
    ⟨"s", 0, [1], [1], 0⟩ 4 (by decide) (by decide) (by decide) (by decide)
    (by decide) (by decide) (by decide) (by decide)

/-- C5 (counterexample to the claim as stated): the deadline is not fixed:
`time.After` is re-created on every loop iteration, so with the consumer
tag at 240 s and the producer tag at 480 s the five-minute (300 s) deadline
elapses with one tag still missing, yet the process exits with status 0,
not 1 as the claim requires. -/
theorem shutdown_exit_zero_after_deadline_counterexample :
    shutdownCoordinator [240, 480] = 0 ∧ shutdownDeadline < 480 := by
  decide

/-- C5 (amended): the five-minute timer restarts at every loop iteration.
With tag arrival times a ≤ b, the exit status is 0 exactly when the first
tag arrives within five minutes of shutdown start and the second within
five minutes of the first; in particular both tags before the five-minute
mark still give status 0, a single tag or none gives status 1, and the
status is always 0 or 1. -/
theorem shutdown_exit_status (a b : Nat) (hab : a ≤ b) :
    (shutdownCoordinator [a, b] = 0 ↔
      a < shutdownDeadline ∧ b < a + shutdownDeadline) ∧
    (b < shutdownDeadline → shutdownCoordinator [a, b] = 0) ∧
    (shutdownCoordinator [a, b] = 0 ∨ shutdownCoordinator [a, b] = 1) ∧
    shutdownCoordinator [a] = 1 ∧ shutdownCoordinator [] = 1 := by
  simp only [shutdownCoordinator, shutdownWait, shutdownDeadline]
  split_ifs <;> simp_all <;> omega

/-- Witness for the amended C5: tags at 100 s and 350 s exit with
status 0. -/
theorem shutdown_exit_status_witness :
    ((shutdownCoordinator [100, 350] = 0 ↔
      100 < shutdownDeadline ∧ 350 < 100 + shutdownDeadline) ∧
    (350 < shutdownDeadline → shutdownCoordinator [100, 350] = 0) ∧
    (shutdownCoordinator [100, 350] = 0 ∨ shutdownCoordinator [100, 350] = 1) ∧
    shutdownCoordinator [100] = 1 ∧ shutdownCoordinator [] = 1) :=
  shutdown_exit_status 100 350 (by decide)

/-- C6: for every message passing the common validations, the hash policy
fails with the missing-key ValidationError exactly when the key is empty,
and otherwise succeeds with the key and value carried over and the target
partition absent. -/
theorem partitionMsg_hash_key_required (topic : String) (m : ConsumerMessage)
    (N : Int) (htopic : topic ≠ "") (hval : m.value ≠ []) (hp : 0 ≤ m.partition) :
    PartitionMsg ("hash") topic m N =
      (if m.key = [] then .error keyErrMsg
       else .ok ⟨topic, none, some m.key, m.value⟩) ∧
    isValidationError keyErrMsg = true := by
  constructor
  · simp [PartitionMsg, htopic, hval, not_lt.mpr hp, List.length_eq_zero]
  · simp [isValidationError]

/-- Witness for C6: a message with a non-empty key is routed with no
explicit target partition. -/
theorem partitionMsg_hash_key_required_witness :
    PartitionMsg ("hash") ("t") ⟨"s", 2, [9], [2], 0⟩ 3 =
      (if ([9] : Bytes) = [] then .error keyErrMsg
       else .ok ⟨"t", none, some [9], [2]⟩) ∧
    isValidationError keyErrMsg = true :=
  partitionMsg_hash_key_required ("t") ⟨"s", 2, [9], [2], 0⟩ 3
    (by decide) (by decide) (by decide)

/-- C7: for every policy and message, the common validations run before
policy dispatch and in order: empty policy name or target topic gives the
ConfigurationError (whatever the other fields); otherwise an empty value
gives its ValidationError; otherwise a negative source partition gives its
ValidationError. -/
theorem partitionMsg_validation_order (partitioner topic : String)
    (m : ConsumerMessage) (N : Int) :
    (partitioner = "" ∨ topic = "" →
      PartitionMsg partitioner topic m N = .error configErrMsg ∧
        isConfigurationError configErrMsg = true) ∧
    (partitioner ≠ "" → topic ≠ "" → m.value = [] →
      PartitionMsg partitioner topic m N = .error valueErrMsg ∧
        isValidationError valueErrMsg = true) ∧
    (partitioner ≠ "" → topic ≠ "" → m.value ≠ [] → m.partition < 0 →
      PartitionMsg partitioner topic m N = .error negPartitionErrMsg ∧
        isValidationError negPartitionErrMsg = true) := by
  refine ⟨?_, ?_, ?_⟩
  · intro h
    simp [PartitionMsg, h, isConfigurationError, configErrMsg]
  · intro h1 h2 h3
    simp [PartitionMsg, h1, h2, h3, isValidationError, valueErrMsg]
  · intro h1 h2 h3 h4
    simp [PartitionMsg, h1, h2, h3, h4, isValidationError, negPartitionErrMsg,
      List.length_eq_zero]

/-- Witness for C7: each of the three validations observed on a concrete
input, one per rule: empty policy with an empty value still reports the
configuration error; empty value beats the negative-partition check; a
negative partition is rejected under the modulo policy. -/
theorem partitionMsg_validation_order_witness :
    (PartitionMsg ("") ("t") ⟨"s", -1, [], [], 0⟩ 1 = .error configErrMsg ∧
      isConfigurationError configErrMsg = true) ∧
    (PartitionMsg ("modulo") ("t") ⟨"s", -1, [], [], 0⟩ 1 = .error valueErrMsg ∧
      isValidationError valueErrMsg = true) ∧
    (PartitionMsg ("modulo") ("t") ⟨"s", -1, [], [1], 0⟩ 1 =
        .error negPartitionErrMsg ∧
      isValidationError negPartitionErrMsg = true) :=
  ⟨(partitionMsg_validation_order ("") ("t") ⟨"s", -1, [], [], 0⟩ 1).1
      (Or.inl rfl),
    (partitionMsg_validation_order ("modulo") ("t") ⟨"s", -1, [], [], 0⟩ 1).2.1
      (by decide) (by decide) rfl,
    (partitionMsg_validation_order ("modulo") ("t") ⟨"s", -1, [], [1], 0⟩ 1).2.2
      (by decide) (by decide) (by decide) (by decide)⟩

/-- C8: `Map` never mutates message bytes: whenever `PartitionMsg` succeeds
the value bytes of the produced message are the source value bytes, and
whenever the produced message carries a key its bytes are the source key
bytes. -/
theorem partitionMsg_preserves_bytes (partitioner topic : String)
    (m : ConsumerMessage) (N : Int) (pm : ProducerMessage)
    (h : PartitionMsg partitioner topic m N = .ok pm) :
    pm.value = m.value ∧ ∀ k, pm.key = some k → k = m.key := by
  simp only [PartitionMsg] at h
  split_ifs at h <;> simp_all <;> subst h <;> simp

/-- Witness for C8: the keeppartition policy carries key and value bytes
through unchanged. -/
theorem partitionMsg_preserves_bytes_witness :
    (⟨"t", some 2, some [1], [2]⟩ : ProducerMessage).value =
      (⟨"s", 2, [1], [2], 0⟩ : ConsumerMessage).value ∧
    ∀ k, (⟨"t", some 2, some [1], [2]⟩ : ProducerMessage).key = some k →
      k = (⟨"s", 2, [1], [2], 0⟩ : ConsumerMessage).key :=
  partitionMsg_preserves_bytes ("keeppartition") ("t") ⟨"s", 2, [1], [2], 0⟩ 3
    ⟨"t", some 2, some [1], [2]⟩ (by decide)

/-- C9: the ReadyGate — the readiness channel the main goroutine blocks
on — is fired exactly once per process lifetime: over any number n ≥ 1 of
consumer-group generations, the trace of channel closes contains the gate
exactly once, as its very first entry (the first invocation of Setup), and
never closes any channel twice (each later Setup closes the fresh
per-generation channel instead). -/
theorem readyGate_fired_once (n : Nat) (hn : 1 ≤ n) :
    (runGenerations n).closed.count readyGateId = 1 ∧
    (runGenerations n).closed.head? = some readyGateId ∧
    (runGenerations n).closed.Nodup := by
  rw [runGenerations_eq]
  refine ⟨?_, ?_, ?_⟩
  · show (List.range n).count readyGateId = 1
    exact List.count_eq_one_of_mem (List.nodup_range n)
      (List.mem_range.mpr (by unfold readyGateId; omega))
  · show (List.range n).head? = some readyGateId
    cases n with
    | zero => omega
    | succ k => simp [List.range_succ_eq_map, readyGateId]
  · show (List.range n).Nodup
    exact List.nodup_range n

/-- Witness for C9: after two generations the gate was closed once, first,
and no channel was closed twice. -/
theorem readyGate_fired_once_witness :
    (runGenerations 2).closed.count readyGateId = 1 ∧
    (runGenerations 2).closed.head? = some readyGateId ∧
    (runGenerations 2).closed.Nodup :=
  readyGate_fired_once 2 (by decide)

/-- C10: with numTargetPartitions = 0 the modulo policy is unsafe for any
message passing the common validations: the Go remainder divides by zero
and panics; with any int32 numTargetPartitions N > 0 the in-range check is
unreachable (the result is never that error) and the call always succeeds,
with target partition the Go truncated remainder of the source
partition. -/
theorem partitionMsg_modulo_div_by_zero (topic : String) (m : ConsumerMessage)
    (htopic : topic ≠ "") (hval : m.value ≠ []) (hp : 0 ≤ m.partition) :
    PartitionMsg ("modulo") topic m 0 = .panicked ∧
    ∀ N : Int, 0 < N → N < 2 ^ 31 →
      PartitionMsg ("modulo") topic m N ≠ .error targetMissingErrMsg ∧
      PartitionMsg ("modulo") topic m N =
        .ok ⟨topic, some (Int.tmod m.partition N), some m.key, m.value⟩ := by
  constructor
  · simp [PartitionMsg, htopic, hval, not_lt.mpr hp, List.length_eq_zero]
  · intro N hN hN32
    have heq := partitionMsg_modulo_pos topic m N htopic hval hp hN hN32
    have htm : Int.tmod m.partition N = m.partition % N :=
      Int.tmod_eq_emod hp (le_of_lt hN)
    rw [heq, htm]
    exact ⟨by simp, rfl⟩

/-- Witness for C10: a concrete well-formed message panics at N = 0 and
succeeds at N = 2. -/
theorem partitionMsg_modulo_div_by_zero_witness :
    PartitionMsg ("modulo") ("t") ⟨"s", 5, [1], [2], 0⟩ 0 = .panicked ∧
    (PartitionMsg ("modulo") ("t") ⟨"s", 5, [1], [2], 0⟩ 2 ≠
        .error targetMissingErrMsg ∧
      PartitionMsg ("modulo") ("t") ⟨"s", 5, [1], [2], 0⟩ 2 =
        .ok ⟨"t", some (Int.tmod 5 2), some [1], [2]⟩) :=
  ⟨(partitionMsg_modulo_div_by_zero ("t") ⟨"s", 5, [1], [2], 0⟩
      (by decide) (by decide) (by decide)).1,
    (partitionMsg_modulo_div_by_zero ("t") ⟨"s", 5, [1], [2], 0⟩
      (by decide) (by decide) (by decide)).2 2 (by decide) (by decide)⟩

end Mirrormaker
